import Mathlib

/-!
Verification of the geothermal-energy report generator
(`src/geothermal_analysis.py`).

The script holds six literal data tables, derives summary statistics
(arithmetic means, a compound annual growth rate, element-wise ratios),
and renders six charts to fixed filenames.  Below, each data table and
each derived statistic is embedded as a Lean definition translated
directly from the source; the theorems settle the specified properties.
-/

namespace Geothermal

/-- Arithmetic mean of a list of rationals, as `np.mean` computes it
(sum divided by length). -/
def npMean (l : List ℚ) : ℚ := l.sum / l.length

/-! ## Capacity trend (`plot_geothermal_capacity_trend`) -/

namespace CapacityTrend

/-- The `years` series `np.arange(2005, 2021)`. -/
def years : List ℤ :=
  [2005, 2006, 2007, 2008, 2009, 2010, 2011, 2012,
   2013, 2014, 2015, 2016, 2017, 2018, 2019, 2020]

/-- The `capacity_mw` table. -/
def capacity_mw : List ℤ :=
  [8686, 8918, 9139, 9459, 9899, 10121, 10011, 10471,
   10740, 11221, 11846, 12706, 13299, 13928, 14600, 15406]

/-- The compound annual growth rate computed at line 72 of the source:
`(capacity_mw[-1]/capacity_mw[0])**(1/(len(years)-1)) - 1`,
with Python float arithmetic modelled over the reals. -/
noncomputable def cagr : ℝ :=
  ((capacity_mw.getLast! : ℝ) / (capacity_mw.head! : ℝ)) ^
    ((1 : ℝ) / ((years.length : ℝ) - 1)) - 1

lemma capacity_mw_getLast : capacity_mw.getLast! = 15406 := by rfl

lemma capacity_mw_head : capacity_mw.head! = 8686 := by rfl

lemma years_length : years.length = 16 := by rfl

lemma cagr_eq : cagr = ((15406 : ℝ) / 8686) ^ ((1 : ℝ) / 15) - 1 := by
  unfold cagr
  rw [capacity_mw_getLast, capacity_mw_head, years_length]
  norm_num

/-- Raising to the 15th natural power then to the real power `1/15`
recovers a nonnegative base. -/
lemma rpow_fifteenth (a : ℝ) (ha : 0 ≤ a) :
    (a ^ (15 : ℕ)) ^ ((1 : ℝ) / 15) = a := by
  rw [← Real.rpow_natCast a 15, ← Real.rpow_mul ha]
  norm_num

lemma cagr_gt : (0.0389 : ℝ) < cagr := by
  rw [cagr_eq]
  have hpow : (1.0389 : ℝ) ^ (15 : ℕ) < (15406 : ℝ) / 8686 := by norm_num
  have h0 : (0 : ℝ) ≤ (1.0389 : ℝ) := by norm_num
  have step : (1.0389 : ℝ) < ((15406 : ℝ) / 8686) ^ ((1 : ℝ) / 15) := by
    calc (1.0389 : ℝ) = ((1.0389 : ℝ) ^ (15 : ℕ)) ^ ((1 : ℝ) / 15) :=
          (rpow_fifteenth _ h0).symm
      _ < ((15406 : ℝ) / 8686) ^ ((1 : ℝ) / 15) :=
          Real.rpow_lt_rpow (by positivity) hpow (by norm_num)
  linarith

lemma cagr_lt : cagr < (0.03895 : ℝ) := by
  rw [cagr_eq]
  have hpow : (15406 : ℝ) / 8686 < (1.03895 : ℝ) ^ (15 : ℕ) := by norm_num
  have step : ((15406 : ℝ) / 8686) ^ ((1 : ℝ) / 15) < (1.03895 : ℝ) := by
    calc ((15406 : ℝ) / 8686) ^ ((1 : ℝ) / 15)
        < ((1.03895 : ℝ) ^ (15 : ℕ)) ^ ((1 : ℝ) / 15) :=
          Real.rpow_lt_rpow (by positivity) hpow (by norm_num)
      _ = (1.03895 : ℝ) := rpow_fifteenth _ (by norm_num)
  linarith

end CapacityTrend

/-! ## Technology comparison (`plot_technology_comparison`) -/

namespace TechnologyComparison

/-- The `technologies` table. -/
def technologies : List String :=
  ["Solar PV", "Wind Onshore", "Wind Offshore",
   "Hydropower", "Geothermal", "Biomass"]

/-- The `capacity_factors` table. -/
def capacity_factors : List ℚ := [24.3, 35.6, 43.5, 44.2, 83.1, 75.2]

/-- The `lcoe_values` table (USD/MWh). -/
def lcoe_values : List ℚ := [57, 39, 84, 47, 71, 85]

/-- The highlight color assigned to the entry whose label equals
`"Geothermal"` (`#d62728`). -/
def highlightColor : String := "#d62728"

/-- The color assigned to every other entry (`#1f77b4`). -/
def otherColor : String := "#1f77b4"

/-- Bar colors set by the loop over `ax1.patches` (lines 104-108):
the color of bar `i` is chosen by an exact string match of
`technologies[i]` against `"Geothermal"`. -/
def barColorsAx1 : List String :=
  technologies.map fun tech =>
    if tech = "Geothermal" then highlightColor else otherColor

/-- Bar colors set by the identical loop over `ax2.patches`
(lines 117-121). -/
def barColorsAx2 : List String :=
  technologies.map fun tech =>
    if tech = "Geothermal" then highlightColor else otherColor

end TechnologyComparison

/-! ## Top countries (`plot_top_geothermal_countries`) -/

namespace TopCountries

/-- The `countries` table. -/
def countries : List String :=
  ["United States", "Indonesia", "Philippines", "Turkey",
   "New Zealand", "Italy", "Iceland", "Kenya", "Mexico", "Japan"]

/-- The `generation_gwh` table. -/
def generation_gwh : List ℚ :=
  [18000, 14600, 10730, 8900, 8200, 6100, 6000, 5500, 5400, 2900]

/-- The `installed_mw` table. -/
def installed_mw : List ℚ :=
  [2600, 2100, 1900, 1500, 1000, 900, 750, 800, 950, 550]

/-- The `y` value of the horizontal reference line on the generation
chart, `ax1.axhline(y=np.mean(generation_gwh), ...)` (line 148). -/
def hlineGeneration : ℚ := npMean generation_gwh

/-- The `y` value of the horizontal reference line on the installed
capacity chart, `ax2.axhline(y=np.mean(installed_mw), ...)` (line 159). -/
def hlineInstalled : ℚ := npMean installed_mw

end TopCountries

/-! ## Investment trends (`plot_investment_trends`) -/

namespace InvestmentTrends

/-- The `years` series `np.arange(2010, 2021)`. -/
def years : List ℤ :=
  [2010, 2011, 2012, 2013, 2014, 2015, 2016, 2017, 2018, 2019, 2020]

/-- The `investment` table (million USD). -/
def investment : List ℚ :=
  [1600, 2900, 1700, 2200, 2800, 2000, 2400, 3100, 2300, 1800, 2500]

/-- The `cumulative_capacity` table. -/
def cumulative_capacity : List ℤ :=
  [10121, 10011, 10471, 10740, 11221, 11846,
   12706, 13299, 13928, 14600, 15406]

/-- The `new_capacity` table; the 2011 entry is negative. -/
def new_capacity : List ℤ :=
  [222, -110, 460, 269, 481, 625, 860, 593, 629, 672, 806]

/-- The per-entry computation of line 253,
`inv / max(cap, 1)` for one `(inv, cap)` pair. -/
def invPerMWEntry (inv : ℚ) (cap : ℤ) : ℚ := inv / ((max cap 1 : ℤ) : ℚ)

/-- The `inv_per_mw` list comprehension of line 253:
`[inv / max(cap, 1) for inv, cap in zip(investment, new_capacity)]`. -/
def inv_per_mw : List ℚ :=
  List.zipWith invPerMWEntry investment new_capacity

/-- The `avg_inv_per_mw` statistic of line 254:
`np.mean([i for i in inv_per_mw if i > 0])` — the filter tests the
computed ratio `i`, not the capacity. -/
def avg_inv_per_mw : ℚ :=
  npMean (inv_per_mw.filter fun i => decide (0 < i))

/-- Modelled from the spec (not the code), for comparison: the average
of `inv / cap` taken only over entries whose new capacity `cap` is
strictly positive, as the specified guard would compute it. -/
def avgSpecCapacityGuard : ℚ :=
  npMean (((investment.zip new_capacity).filter
    fun p => decide (0 < p.2)).map fun p => p.1 / (p.2 : ℚ))

end InvestmentTrends

/-! ## Regional potential (`plot_geothermal_potential_map`) -/

namespace RegionalPotential

/-- The `regions` table. -/
def regions : List String :=
  ["North America", "Central America", "South America",
   "Europe", "Africa", "Middle East", "Central Asia",
   "East Asia", "Southeast Asia", "Oceania"]

/-- The `potential_capacity_gw` table. -/
def potential_capacity_gw : List ℚ := [35, 6, 12, 18, 15, 2, 8, 27, 30, 9]

/-- The `installed_capacity_gw` table. -/
def installed_capacity_gw : List ℚ :=
  [3.2, 0.7, 0.9, 3.3, 0.7, 0.1, 0.1, 3.8, 4.8, 1.4]

/-- The `utilization` list comprehension of line 277:
`[i/p*100 for i, p in zip(installed_capacity_gw, potential_capacity_gw)]`. -/
def utilization : List ℚ :=
  List.zipWith (fun i p => i / p * 100) installed_capacity_gw
    potential_capacity_gw

/-- Rows of the DataFrame restricted to the columns the sort and the
claim inspect: `(Region, Potential (GW))`. -/
def regionRows : List (String × ℚ) := regions.zip potential_capacity_gw

/-- Inserts a row into a list already sorted in descending order of
potential, keeping that order. -/
def insertDescByPotential (x : String × ℚ) :
    List (String × ℚ) → List (String × ℚ)
  | [] => [x]
  | y :: ys =>
      if decide (y.2 < x.2) then x :: y :: ys
      else y :: insertDescByPotential x ys

/-- Sorts rows in descending order of potential, modelling
`df.sort_values(by=..., ascending=False)` (line 287); all embedded
potentials are pairwise distinct, so every comparison sort agrees. -/
def sortDescByPotential : List (String × ℚ) → List (String × ℚ)
  | [] => []
  | x :: xs => insertDescByPotential x (sortDescByPotential xs)

/-- The DataFrame rows after the descending sort on potential. -/
def sortedRegionRows : List (String × ℚ) := sortDescByPotential regionRows

end RegionalPotential

/-! ## Driver (`generate_all_visualizations`) and filesystem effects -/

namespace Driver

/-- Module-level directory creation (line 26):
`Path("./results").mkdir(exist_ok=True)`.  With `exist_ok=True` the
call succeeds whether or not the directory already exists, and
afterwards the directory exists. -/
def ensureResultsDir (_dirExists : Bool) : Bool := true

/-- The six image files written by one full run, in write order, with
the fixed path used by each `plt.savefig` call. -/
def outputFiles : List String :=
  ["./results/geothermal_capacity_trend.png",
   "./results/renewable_technology_comparison.png",
   "./results/top_geothermal_countries.png",
   "./results/orc_working_fluid_comparison.png",
   "./results/geothermal_investment_trends.png",
   "./results/geothermal_potential_by_region.png"]

/-- Filesystem effect of one full run on the set of files present in
the results directory: each of the six fixed names is written,
overwriting any prior file of the same name; no other file is touched. -/
def afterRun (fs : Finset String) : Finset String := fs ∪ outputFiles.toFinset

/-- One observable step of `generate_all_visualizations`: either a call
to a chart function or a `print`. -/
inductive Event where
  | callOp (name : String)
  | printLine (line : String)
deriving DecidableEq, Repr

/-- The straight-line body of `generate_all_visualizations`
(lines 321-341), in program order. -/
def driverTrace : List Event :=
  [Event.printLine "Generating geothermal energy visualizations...",
   Event.callOp "plot_geothermal_capacity_trend",
   Event.printLine "✓ Generated capacity trend visualization",
   Event.callOp "plot_technology_comparison",
   Event.printLine "✓ Generated technology comparison visualization",
   Event.callOp "plot_top_geothermal_countries",
   Event.printLine "✓ Generated top countries visualization",
   Event.callOp "plot_orc_efficiency_comparison",
   Event.printLine "✓ Generated ORC efficiency comparison",
   Event.callOp "plot_investment_trends",
   Event.printLine "✓ Generated investment trends visualization",
   Event.callOp "plot_geothermal_potential_map",
   Event.printLine "✓ Generated geothermal potential map",
   Event.printLine "\nAll visualizations have been saved to the \x27results\x27 directory."]

/-- The chart operations invoked by the driver, in order. -/
def chartCallSequence : List String :=
  driverTrace.filterMap fun e =>
    match e with
    | Event.callOp n => some n
    | Event.printLine _ => none

/-- The console lines emitted by the driver, in order. -/
def consoleOutput : List String :=
  driverTrace.filterMap fun e =>
    match e with
    | Event.callOp _ => none
    | Event.printLine s => some s

/-- The six per-chart progress lines. -/
def progressLines : List String :=
  ["✓ Generated capacity trend visualization",
   "✓ Generated technology comparison visualization",
   "✓ Generated top countries visualization",
   "✓ Generated ORC efficiency comparison",
   "✓ Generated investment trends visualization",
   "✓ Generated geothermal potential map"]

/-- The final summary line. -/
def summaryLine : String :=
  "\nAll visualizations have been saved to the \x27results\x27 directory."

end Driver

/-! ## Claim theorems -/

/-- Claim C2, counterexample: the computed growth rate
`(15406/8686)^(1/15) - 1` is not approximately `0.0383`; it differs
from `0.0383` by more than `0.0005` (it is about `0.0389`), so the
claimed value `0.0383` (3.83%) is wrong beyond any floating-point
tolerance. -/
theorem cagr_not_3_83_percent :
    (0.0005 : ℝ) < |CapacityTrend.cagr - 0.0383| := by
  have h := CapacityTrend.cagr_gt
  rw [lt_abs]
  left
  linarith

/-- Claim C2, amended: the capacity-trend operation computes the
compound annual growth rate as `(last/first)^(1/(n-1)) - 1` over the
embedded 16-year series, and for that dataset the computed rate equals
`(15406/8686)^(1/15) - 1`, which is approximately `0.0389` (3.89%),
within floating-point tolerance. -/
theorem cagr_formula_and_value :
    CapacityTrend.cagr = ((15406 : ℝ) / 8686) ^ ((1 : ℝ) / 15) - 1 ∧
    |CapacityTrend.cagr - 0.0389| < 0.0001 := by
  refine ⟨CapacityTrend.cagr_eq, ?_⟩
  have h1 := CapacityTrend.cagr_gt
  have h2 := CapacityTrend.cagr_lt
  rw [abs_lt]
  constructor <;> linarith

/-- Claim C1, counterexample: the positivity guard of line 254 filters
the computed ratios `i = inv / max(cap, 1)`, not the capacities, and
every embedded ratio is positive.  Hence the 2011 entry (new capacity
`-110`) contributes its ratio `2900` to the average, the code average
equals the unguarded mean of all eleven ratios (removing the guard
changes nothing), and the code average differs from the average that a
strict-positivity guard on new capacity would produce. -/
theorem investment_avg_2011_included :
    (2900 : ℚ) ∈ InvestmentTrends.inv_per_mw.filter (fun i => decide (0 < i)) ∧
    InvestmentTrends.avg_inv_per_mw = npMean InvestmentTrends.inv_per_mw ∧
    InvestmentTrends.avg_inv_per_mw ≠ InvestmentTrends.avgSpecCapacityGuard := by
  norm_num [InvestmentTrends.avg_inv_per_mw, InvestmentTrends.avgSpecCapacityGuard,
    InvestmentTrends.inv_per_mw, InvestmentTrends.invPerMWEntry,
    InvestmentTrends.investment, InvestmentTrends.new_capacity,
    npMean, List.filter_cons, List.zipWith, List.zip, max_def]

/-- Claim C1, amended: in the investment-trends operation, the
investment-per-MW average is taken over the entries whose computed
ratio `inv / max(cap, 1)` is strictly positive; on the embedded dataset
every ratio is positive, so all eleven entries contribute — including
the year-2011 entry (new capacity `-110`), whose ratio is `2900` — and
removing the positivity guard leaves the resulting average unchanged. -/
theorem investment_avg_over_positive_ratios :
    InvestmentTrends.inv_per_mw.filter (fun i => decide (0 < i)) =
      InvestmentTrends.inv_per_mw ∧
    InvestmentTrends.inv_per_mw.length = 11 ∧
    InvestmentTrends.invPerMWEntry 2900 (-110) = 2900 ∧
    InvestmentTrends.avg_inv_per_mw = npMean InvestmentTrends.inv_per_mw := by
  norm_num [InvestmentTrends.avg_inv_per_mw,
    InvestmentTrends.inv_per_mw, InvestmentTrends.invPerMWEntry,
    InvestmentTrends.investment, InvestmentTrends.new_capacity,
    npMean, List.filter_cons, List.zipWith, max_def]

/-- Claim C10: the per-entry investment-per-MW computation divides by
`max(cap, 1)`, which is at least `1` for every integer capacity, so the
computation is total; for the 2011 entry (investment `2900`, new
capacity `-110`) the denominator is `1` and the ratio equals `2900`,
which is strictly positive. -/
theorem inv_per_mw_total_and_2011_positive :
    (∀ cap : ℤ, 1 ≤ max cap 1 ∧ ((max cap 1 : ℤ) : ℚ) ≠ 0) ∧
    InvestmentTrends.invPerMWEntry 2900 (-110) = 2900 ∧
    0 < InvestmentTrends.invPerMWEntry 2900 (-110) := by
  refine ⟨fun cap => ⟨le_max_right cap 1, ?_⟩, ?_, ?_⟩
  · have h1 : (1 : ℤ) ≤ max cap 1 := le_max_right cap 1
    have h2 : (0 : ℤ) < max cap 1 := lt_of_lt_of_le zero_lt_one h1
    exact_mod_cast h2.ne.symm
  · norm_num [InvestmentTrends.invPerMWEntry, max_def]
  · norm_num [InvestmentTrends.invPerMWEntry, max_def]

/-- Claim C3: in the top-countries operation, the arithmetic mean of
the embedded generation series (10 entries summing to 86330) equals
exactly `86330 / 10 = 8633` GWh, and the horizontal reference line of
each of the two charts sits at the arithmetic mean of its series
(`8633` for generation, `1305` for installed capacity). -/
theorem top_countries_mean_8633 :
    TopCountries.generation_gwh.sum = 86330 ∧
    TopCountries.generation_gwh.length = 10 ∧
    npMean TopCountries.generation_gwh = 8633 ∧
    TopCountries.hlineGeneration = npMean TopCountries.generation_gwh ∧
    TopCountries.hlineGeneration = 8633 ∧
    TopCountries.hlineInstalled = npMean TopCountries.installed_mw ∧
    TopCountries.hlineInstalled = 1305 := by
  norm_num [TopCountries.generation_gwh, TopCountries.installed_mw,
    TopCountries.hlineGeneration, TopCountries.hlineInstalled, npMean]

/-- Claim C4: in the technology-comparison operation, highlight
selection is an exact string match on the technology label: exactly one
entry of the six-technology list (label `"Geothermal"`, index 4) gets
the highlight color `#d62728`, every other entry gets `#1f77b4`, and
the same assignment is made on both bar charts. -/
theorem technology_highlight_unique :
    TechnologyComparison.technologies.filter
      (fun t => t == "Geothermal") = ["Geothermal"] ∧
    TechnologyComparison.barColorsAx1 =
      [TechnologyComparison.otherColor, TechnologyComparison.otherColor,
       TechnologyComparison.otherColor, TechnologyComparison.otherColor,
       TechnologyComparison.highlightColor, TechnologyComparison.otherColor] ∧
    TechnologyComparison.barColorsAx2 = TechnologyComparison.barColorsAx1 ∧
    TechnologyComparison.barColorsAx1.count
      TechnologyComparison.highlightColor = 1 ∧
    TechnologyComparison.barColorsAx1.count
      TechnologyComparison.otherColor = 5 := by
  decide

/-- Claim C5: the regional-potential operation sorts the ten-region
table in descending order of theoretical potential before rendering;
after the sort the first row is `("North America", 35)` and the last
row is `("Middle East", 2)`. -/
theorem regional_sort_first_last :
    RegionalPotential.sortedRegionRows.head? = some ("North America", 35) ∧
    RegionalPotential.sortedRegionRows.getLast? = some ("Middle East", 2) ∧
    RegionalPotential.sortedRegionRows.length = 10 := by
  decide

/-- Claim C6: in the regional-potential operation, the utilization
percentage of every region equals `installed / potential * 100`, and
the division is defined on every row of the embedded dataset because no
embedded potential value is `0`. -/
theorem utilization_defined_all_regions :
    (∀ p ∈ RegionalPotential.potential_capacity_gw, p ≠ 0) ∧
    RegionalPotential.utilization =
      [64/7, 35/3, 15/2, 55/3, 14/3, 5, 5/4, 380/27, 16, 140/9] := by
  constructor
  · intro p hp
    fin_cases hp <;> norm_num
  · norm_num [RegionalPotential.utilization,
      RegionalPotential.installed_capacity_gw,
      RegionalPotential.potential_capacity_gw, List.zipWith]

/-- Claim C7: a full run first ensures the results directory exists
(idempotent create), then writes exactly six image files with fixed,
pairwise-distinct filenames; re-running writes the same six filenames,
each overwriting the prior file, and no other file is written (a file
is present after a run iff it was present before or is one of the six
fixed outputs). -/
theorem driver_writes_six_files_idempotent :
    (∀ b : Bool, Driver.ensureResultsDir b = true) ∧
    Driver.outputFiles.length = 6 ∧
    Driver.outputFiles.Nodup ∧
    (∀ fs : Finset String,
      Driver.afterRun (Driver.afterRun fs) = Driver.afterRun fs) ∧
    (∀ fs : Finset String, ∀ f : String,
      f ∈ Driver.afterRun fs ↔ f ∈ fs ∨ f ∈ Driver.outputFiles) := by
  refine ⟨fun b => rfl, rfl, by decide, fun fs => ?_, fun fs f => ?_⟩
  · simp [Driver.afterRun, Finset.union_assoc]
  · simp [Driver.afterRun]

/-- Claim C8, counterexample: the console output of the driver is not
the seven-line sequence of one progress line per chart plus a final
summary line: the driver also prints an initial banner line, so eight
lines are emitted. -/
theorem console_output_not_seven_lines :
    Driver.consoleOutput ≠ Driver.progressLines ++ [Driver.summaryLine] ∧
    Driver.consoleOutput.length = 8 ∧
    (Driver.progressLines ++ [Driver.summaryLine]).length = 7 := by
  refine ⟨?_, rfl, rfl⟩
  decide

/-- Claim C8, amended: the driver invokes the six chart operations
unconditionally in a fixed sequence, and its console output is the
fixed sequence consisting of one initial banner line, one progress line
per completed chart (six lines), and a final summary line. -/
theorem driver_sequence_and_console_output :
    Driver.chartCallSequence =
      ["plot_geothermal_capacity_trend", "plot_technology_comparison",
       "plot_top_geothermal_countries", "plot_orc_efficiency_comparison",
       "plot_investment_trends", "plot_geothermal_potential_map"] ∧
    Driver.consoleOutput =
      "Generating geothermal energy visualizations..." ::
        (Driver.progressLines ++ [Driver.summaryLine]) := by
  constructor <;> rfl

/-- Claim C9: the embedded investment-trends tables are mutually
consistent — for every index `i` from 1 to 10, `new_capacity[i]` equals
`cumulative_capacity[i] - cumulative_capacity[i-1]`, and the 11-entry
`cumulative_capacity` series equals the last 11 entries (years
2010-2020) of the capacity-trend chart's `capacity_mw` series. -/
theorem investment_tables_consistent :
    (∀ i : Fin 10,
      InvestmentTrends.new_capacity.getD ((i : ℕ) + 1) 0 =
        InvestmentTrends.cumulative_capacity.getD ((i : ℕ) + 1) 0 -
          InvestmentTrends.cumulative_capacity.getD (i : ℕ) 0) ∧
    InvestmentTrends.cumulative_capacity = CapacityTrend.capacity_mw.drop 5 ∧
    CapacityTrend.capacity_mw.length = 16 := by
  refine ⟨?_, rfl, rfl⟩
  decide

end Geothermal
